import Mathlib

/-!
A shallow embedding of `sherpa/database.py`: the `Database` class (store
supervisor and controller session) and the `Client` class (worker session),
together with the MongoDB collections they talk to.

Modelling conventions:
* The three Mongo collections of the `sherpa` database (`trials`, `results`,
  `stop`) are lists in insertion order, gathered in `DBState`.  The store
  assigns each inserted result document an `_id`; we model the generator with
  a `nextId` counter.
* Python exceptions become an explicit `PyError` value: a function that can
  raise returns `Except PyError _` (or pairs the error with the state the
  store keeps even when the caller's exception unwinds, as in `send_metrics`,
  whose insert has already been committed when `StopIteration` is raised).
* `subprocess.Popen.poll` is modelled by `Option Int`: `none` while the
  process runs, `some code` once it exited.  `Database.mongo_process` is an
  `Option (Option Int)` because the attribute is `None` until `start` is
  called; calling `.poll()` on `None` raises `AttributeError`.
* Parameter values are `Value`: `npInt64 n` models a `numpy.int64` (a
  fixed-width integer the BSON encoder rejects), `pyInt n` a native Python
  `int`, and `other b` any further Python value tagged with whether the store
  can encode it (`float`/`str`/`bool` → `true`; e.g. a Python `set` → `false`).
-/

/-- A scalar parameter value, as far as the BSON encoder is concerned. -/
inductive Value where
  | npInt64 (n : Int)
  | pyInt (n : Int)
  | other (representable : Bool)
deriving DecidableEq

/-- Whether `pymongo` can encode the value (`numpy.int64` cannot be). -/
def representable : Value → Bool
  | .npInt64 _ => false
  | .pyInt _ => true
  | .other b => b

/-- A document of the `trials` collection: `{'trial_id': ..., 'parameters': ...}`. -/
structure TrialDoc where
  trial_id : Int
  parameters : List (String × Value)
deriving DecidableEq

/-- A document of the `results` collection, including the Mongo-assigned `_id`. -/
structure ResultDoc where
  _id : Nat
  parameters : List (String × Value)
  trial_id : Int
  objective : Value
  iteration : Int
  context : List (String × Value)
deriving DecidableEq

/-- A document of the `stop` collection: `{'trial_id': ...}`. -/
structure StopDoc where
  trial_id : Int
deriving DecidableEq

/-- A result row as returned by `Database.get_new_results`, after
`result.pop('_id')` removed the store-assigned identifier. -/
structure ResultView where
  parameters : List (String × Value)
  trial_id : Int
  objective : Value
  iteration : Int
  context : List (String × Value)
deriving DecidableEq

/-- Dropping `_id` from a result document (`result.pop('_id')`). -/
def viewOf (r : ResultDoc) : ResultView :=
  { parameters := r.parameters, trial_id := r.trial_id, objective := r.objective,
    iteration := r.iteration, context := r.context }

/-- The contents of the shared Mongo store. -/
structure DBState where
  trials : List TrialDoc
  results : List ResultDoc
  stop : List StopDoc
  nextId : Nat
deriving DecidableEq

/-- The Python exceptions the embedded code can raise. -/
inductive PyError where
  | attributeError
  | environmentError (code : Int)
  | invalidDocument
  | stopIteration
  | assertionError
  | runtimeErrorNoTrial
deriving DecidableEq

/-- The mutable state of a `Database` object that the embedded methods read:
`collected_results` (the SeenSet, a Python list) and `mongo_process`
(`none` before `start`, `some poll` afterwards with `poll` the exit status). -/
structure Database where
  collected_results : List Nat
  mongo_process : Option (Option Int)
deriving DecidableEq

/-- `Database.check_db_status`: `status = self.mongo_process.poll()`;
`if status: raise EnvironmentError(...)`.  Note `if status:` is false both
for `None` (still running) and for exit code `0`. -/
def check_db_status (d : Database) : Except PyError Unit :=
  match d.mongo_process with
  | none => .error .attributeError
  | some poll =>
    match poll with
    | none => .ok ()
    | some code => if code != 0 then .error (.environmentError code) else .ok ()

/-- The loop body of `Database.get_new_results`: walk all result documents in
order, keep those whose `_id` is not yet in `collected_results`, appending
each kept id to `collected_results` as it is kept. -/
def collectNew : List ResultDoc → List Nat → List ResultDoc × List Nat
  | [], seen => ([], seen)
  | r :: rs, seen =>
    if r._id ∈ seen then collectNew rs seen
    else (r :: (collectNew rs (seen ++ [r._id])).1, (collectNew rs (seen ++ [r._id])).2)

/-- `Database.get_new_results`: liveness check, then return the not-yet-seen
result rows with their `_id` popped, recording the ids in `collected_results`. -/
def get_new_results (d : Database) (s : DBState) : Except PyError (List ResultView × Database) :=
  match check_db_status d with
  | .error e => .error e
  | .ok _ =>
    .ok ((collectNew s.results d.collected_results).1.map viewOf,
         { collected_results := (collectNew s.results d.collected_results).2,
           mongo_process := d.mongo_process })

/-- `Database.__init__(db_dir, port, reinstantiated)`: sets
`collected_results = []` and `mongo_process = None`, then, if
`reinstantiated`, calls `self.get_new_results()` (whose liveness check
dereferences the still-`None` process handle). -/
def database_init (s : DBState) (reinstantiated : Bool) : Except PyError Database :=
  if reinstantiated then
    match get_new_results { collected_results := [], mongo_process := none } s with
    | .ok (_, d) => .ok d
    | .error e => .error e
  else .ok { collected_results := [], mongo_process := none }

/-- A sherpa `Trial`: an id and a parameter mapping. -/
structure Trial where
  id : Int
  parameters : List (String × Value)
deriving DecidableEq

/-- The per-value body of the `except InvalidDocument` handler of
`Database.enqueue_trial`: `if isinstance(v, numpy.int64): v = int(v)`. -/
def coerceValue : Value → Value
  | .npInt64 n => .pyInt n
  | v => v

/-- `self.db.trials.insert_one(doc)`: succeeds and appends the document when
every parameter value is BSON-encodable, otherwise raises `InvalidDocument`. -/
def trials_insert_one (s : DBState) (doc : TrialDoc) : Except PyError DBState :=
  if doc.parameters.all (fun kv => representable kv.2) then
    .ok { s with trials := s.trials ++ [doc] }
  else
    .error .invalidDocument

/-- `Database.enqueue_trial`: liveness check, insert the trial document; on
`InvalidDocument` rebuild the parameters with `numpy.int64` values coerced to
`int` and insert once more, outside any handler. -/
def enqueue_trial (d : Database) (s : DBState) (trial : Trial) : Except PyError DBState :=
  match check_db_status d with
  | .error e => .error e
  | .ok _ =>
    match trials_insert_one s { trial_id := trial.id, parameters := trial.parameters } with
    | .ok s2 => .ok s2
    | .error .invalidDocument =>
      trials_insert_one s
        { trial_id := trial.id,
          parameters := trial.parameters.map (fun kv => (kv.1, coerceValue kv.2)) }
    | .error e => .error e

/-- `Database.add_for_stopping`: liveness check, then insert
`{'trial_id': trial_id}` into the `stop` collection. -/
def add_for_stopping (d : Database) (s : DBState) (trial_id : Int) : Except PyError DBState :=
  match check_db_status d with
  | .error e => .error e
  | .ok _ => .ok { s with stop := s.stop ++ [{ trial_id := trial_id }] }

/-- Python truthiness of a document returned by `find`: a dict with keys,
hence always truthy. -/
def docTruthy (_t : TrialDoc) : Bool := true

/-- The `for _ in range(5)` loop of `Client.get_trial`, with the total time
slept threaded through.  Each attempt builds a generator over the matching
trial documents; `t = next(g)` raises `StopIteration` when there is no match,
otherwise `t` is the first match and `if t: break` fires (a found document is
truthy); `time.sleep(10)` runs at the end of a non-broken iteration.
Returns `.ok none` when the range is exhausted with `t` falsy. -/
def get_trial_loop (found : List TrialDoc) : Nat → Nat → Nat × Except PyError (Option TrialDoc)
  | 0, slept => (slept, .ok none)
  | fuel + 1, slept =>
    match found with
    | [] => (slept, .error .stopIteration)
    | t :: _ =>
      if docTruthy t then (slept, .ok (some t))
      else get_trial_loop found fuel (slept + 10)

/-- `int(id or os.environ.get('SHERPA_TRIAL_ID'))` together with the
preceding `assert`: an explicit id is used when truthy (non-`None` and
nonzero); otherwise the environment value is used when the variable is set;
`none` means the assertion fails.  The environment variable is modelled as
the parsed integer of a set, non-empty `SHERPA_TRIAL_ID` string. -/
def resolveTrialId (env : Option Int) (id : Option Int) : Option Int :=
  match id with
  | some n => if n != 0 then some n else env
  | none => env

/-- The part of `Client.get_trial` after the trial id is resolved: query the
`trials` collection for the id inside the bounded retry loop, then either
propagate the raised error, raise `RuntimeError("No Trial Found!")` when the
loop left `t` falsy, or build the `sherpa.Trial` from the matched document.
The first component is the total time slept. -/
def trialLookup (s : DBState) (trial_id : Int) : Nat × Except PyError Trial :=
  match get_trial_loop (s.trials.filter (fun t => t.trial_id == trial_id)) 5 0 with
  | (slept, .error e) => (slept, .error e)
  | (slept, .ok none) => (slept, .error .runtimeErrorNoTrial)
  | (slept, .ok (some t)) => (slept, .ok { id := t.trial_id, parameters := t.parameters })

/-- `Client.get_trial(id)`: assert an id source exists, resolve the id, then
look the trial up.  The first component is the total time slept. -/
def get_trial (env : Option Int) (s : DBState) (id : Option Int) : Nat × Except PyError Trial :=
  match resolveTrialId env id with
  | none => (0, .error .assertionError)
  | some trial_id => trialLookup s trial_id

/-- `Client.send_metrics(trial, iteration, objective, context)`: build the
result document, insert it unconditionally (the store keeps it even when the
call then raises), then scan the whole `stop` collection and raise
`StopIteration("Trial listed for stopping.")` when any entry carries this
trial's id. -/
def send_metrics (s : DBState) (trial : Trial) (iteration : Int) (objective : Value)
    (context : List (String × Value)) : DBState × Except PyError Unit :=
  let s2 : DBState :=
    { s with
      results := s.results ++
        [{ _id := s.nextId, parameters := trial.parameters, trial_id := trial.id,
           objective := objective, iteration := iteration, context := context }],
      nextId := s.nextId + 1 }
  if s2.stop.any (fun e => e.trial_id == trial.id) then (s2, .error .stopIteration)
  else (s2, .ok ())

/-- The SeenSet after a sequence of `get_new_results` calls, one per store
snapshot in the list. -/
def seenAfter (seen : List Nat) : List DBState → List Nat
  | [] => seen
  | s :: ss => seenAfter (collectNew s.results seen).2 ss

/-- The store snapshot a given call of a call sequence observes. -/
def stateAt (ss : List DBState) (i : Nat) : DBState :=
  ss.getD i { trials := [], results := [], stop := [], nextId := 0 }

/-- The result documents the `i`-th `get_new_results` call of a call sequence
selects (before their `_id` is popped for the caller). -/
def pickedAt (seen : List Nat) (ss : List DBState) (i : Nat) : List ResultDoc :=
  (collectNew (stateAt ss i).results (seenAfter seen (ss.take i))).1

/-! Concrete documents and states used by the closed witness theorems below. -/

def wDoc1 : ResultDoc :=
  { _id := 10, parameters := [("lr", Value.pyInt 1)], trial_id := 1,
    objective := Value.pyInt 5, iteration := 1, context := [] }

def wDoc2 : ResultDoc :=
  { _id := 11, parameters := [("lr", Value.pyInt 1)], trial_id := 1,
    objective := Value.pyInt 6, iteration := 2, context := [] }

def wState1 : DBState := { trials := [], results := [wDoc1], stop := [], nextId := 12 }

def wState2 : DBState := { trials := [], results := [wDoc1, wDoc2], stop := [], nextId := 12 }

def queueOne : DBState :=
  { trials := [{ trial_id := 1, parameters := [("lr", Value.pyInt 1)] }],
    results := [], stop := [], nextId := 0 }

def zeroTrialState : DBState :=
  { trials := [{ trial_id := 0, parameters := [] }], results := [], stop := [], nextId := 0 }

def emptyState : DBState := { trials := [], results := [], stop := [], nextId := 0 }

def stop3State : DBState := { trials := [], results := [], stop := [{ trial_id := 3 }], nextId := 0 }

def dRunning : Database := { collected_results := [], mongo_process := some none }

def dExited2 : Database := { collected_results := [], mongo_process := some (some 2) }

def trialNp : Trial := { id := 4, parameters := [("batch", Value.npInt64 7), ("lr", Value.other true)] }

/-! Helper lemmas about the deduplication scan and the SeenSet. -/

theorem collectNew_snd_mono (rs : List ResultDoc) :
    ∀ (seen : List Nat) (a : Nat), a ∈ seen → a ∈ (collectNew rs seen).2 := by
  induction rs with
  | nil => intro seen a h; simpa [collectNew] using h
  | cons r rs ih =>
    intro seen a h
    simp only [collectNew]
    by_cases hm : r._id ∈ seen
    · rw [if_pos hm]; exact ih seen a h
    · rw [if_neg hm]; exact ih (seen ++ [r._id]) a (List.mem_append_left _ h)

theorem collectNew_fst_not_mem (rs : List ResultDoc) :
    ∀ (seen : List Nat) (r : ResultDoc), r ∈ (collectNew rs seen).1 → r._id ∉ seen := by
  induction rs with
  | nil => intro seen r h; simp [collectNew] at h
  | cons x rs ih =>
    intro seen r h
    simp only [collectNew] at h
    by_cases hm : x._id ∈ seen
    · rw [if_pos hm] at h; exact ih seen r h
    · rw [if_neg hm] at h
      rcases List.mem_cons.mp h with rfl | h2
      · exact hm
      · intro hcon
        exact (ih _ r h2) (List.mem_append_left _ hcon)

theorem collectNew_fst_mem_snd (rs : List ResultDoc) :
    ∀ (seen : List Nat) (r : ResultDoc), r ∈ (collectNew rs seen).1 → r._id ∈ (collectNew rs seen).2 := by
  induction rs with
  | nil => intro seen r h; simp [collectNew] at h
  | cons x rs ih =>
    intro seen r h
    simp only [collectNew] at h ⊢
    by_cases hm : x._id ∈ seen
    · rw [if_pos hm] at h ⊢; exact ih seen r h
    · rw [if_neg hm] at h ⊢
      rcases List.mem_cons.mp h with rfl | h2
      · exact collectNew_snd_mono rs _ _ (List.mem_append_right _ (List.mem_singleton.mpr rfl))
      · exact ih _ r h2

theorem seenAfter_append (l1 l2 : List DBState) :
    ∀ seen : List Nat, seenAfter seen (l1 ++ l2) = seenAfter (seenAfter seen l1) l2 := by
  induction l1 with
  | nil => intro seen; rfl
  | cons s l1 ih => intro seen; simp only [List.cons_append, seenAfter]; exact ih _

theorem seenAfter_mono (ss : List DBState) :
    ∀ (seen : List Nat) (a : Nat), a ∈ seen → a ∈ seenAfter seen ss := by
  induction ss with
  | nil => intro seen a h; exact h
  | cons s ss ih => intro seen a h; exact ih _ a (collectNew_snd_mono _ _ a h)

theorem seenAfter_take_succ (seen : List Nat) (ss : List DBState) (i : Nat) (hi : i < ss.length) :
    seenAfter seen (ss.take (i+1)) = (collectNew (stateAt ss i).results (seenAfter seen (ss.take i))).2 := by
  rw [List.take_succ, List.getElem?_eq_getElem hi, seenAfter_append]
  have hst : stateAt ss i = ss[i] := by
    simp [stateAt, List.getD_eq_getElem?_getD, List.getElem?_eq_getElem hi]
  rw [hst]
  rfl

theorem get_new_results_running (seen : List Nat) (s : DBState) :
    get_new_results { collected_results := seen, mongo_process := some none } s
      = .ok ((collectNew s.results seen).1.map viewOf,
             { collected_results := (collectNew s.results seen).2, mongo_process := some none }) := rfl

/-! Helper lemmas about `send_metrics`. -/

theorem send_metrics_state (s : DBState) (t : Trial) (it : Int) (obj : Value)
    (ctx : List (String × Value)) :
    (send_metrics s t it obj ctx).1
      = { s with
          results := s.results ++
            [{ _id := s.nextId, parameters := t.parameters, trial_id := t.id,
               objective := obj, iteration := it, context := ctx }],
          nextId := s.nextId + 1 } := by
  simp only [send_metrics]
  split <;> rfl

theorem send_metrics_snd_eq (s : DBState) (t : Trial) (it : Int) (obj : Value)
    (ctx : List (String × Value)) :
    (send_metrics s t it obj ctx).2
      = if s.stop.any (fun e => e.trial_id == t.id) then Except.error PyError.stopIteration
        else Except.ok () := by
  simp only [send_metrics]
  by_cases h : s.stop.any (fun e => e.trial_id == t.id) = true
  · rw [if_pos h, if_pos h]
  · rw [if_neg h, if_neg h]

/-- Claim C1: over any sequence of `get_new_results` calls of one controller
lifetime (process running, arbitrary store contents at each call), each call
returns exactly the result rows whose store-assigned id is not yet in the
SeenSet, adds each returned id to the SeenSet it hands back, and a given
store-assigned id occurs in the records selected by at most one call. -/
theorem getNewResults_at_most_once (seen : List Nat) (ss : List DBState)
    (i j : Nat) (hij : i < j) (hj : j < ss.length) :
    get_new_results { collected_results := seenAfter seen (ss.take i), mongo_process := some none }
        (stateAt ss i)
      = .ok ((pickedAt seen ss i).map viewOf,
             { collected_results := seenAfter seen (ss.take (i+1)), mongo_process := some none })
    ∧ (∀ r ∈ pickedAt seen ss i,
        r._id ∉ seenAfter seen (ss.take i) ∧ r._id ∈ seenAfter seen (ss.take (i+1)))
    ∧ (∀ r ∈ pickedAt seen ss i, ∀ q ∈ pickedAt seen ss j, r._id ≠ q._id) := by
  have hi : i < ss.length := Nat.lt_trans hij hj
  have hstep : seenAfter seen (ss.take (i+1))
      = (collectNew (stateAt ss i).results (seenAfter seen (ss.take i))).2 :=
    seenAfter_take_succ seen ss i hi
  refine ⟨?_, ?_, ?_⟩
  · rw [hstep]; exact get_new_results_running _ _
  · intro r hr
    exact ⟨collectNew_fst_not_mem _ _ r hr, by rw [hstep]; exact collectNew_fst_mem_snd _ _ r hr⟩
  · intro r hr q hq
    have h1 : r._id ∈ seenAfter seen (ss.take (i+1)) := by
      rw [hstep]; exact collectNew_fst_mem_snd _ _ r hr
    have hdecomp : ss.take j = ss.take (i+1) ++ (ss.drop (i+1)).take (j - (i+1)) := by
      have h3 : i + 1 + (j - (i+1)) = j := Nat.add_sub_cancel' hij
      conv_lhs => rw [← h3]
      rw [List.take_add]
    have h2 : r._id ∈ seenAfter seen (ss.take j) := by
      rw [hdecomp, seenAfter_append]
      exact seenAfter_mono _ _ _ h1
    have h4 : q._id ∉ seenAfter seen (ss.take j) := collectNew_fst_not_mem _ _ q hq
    intro heq; rw [heq] at h2; exact h4 h2

/-- Witness for C1 at a concrete two-call sequence. -/
theorem getNewResults_at_most_once_witness :
    (0 < 1 ∧ 1 < 2)
    ∧ (get_new_results
          { collected_results := seenAfter [] ([wState1, wState2].take 0), mongo_process := some none }
          (stateAt [wState1, wState2] 0)
        = .ok ((pickedAt [] [wState1, wState2] 0).map viewOf,
               { collected_results := seenAfter [] ([wState1, wState2].take (0+1)),
                 mongo_process := some none })
      ∧ (∀ r ∈ pickedAt [] [wState1, wState2] 0,
          r._id ∉ seenAfter [] ([wState1, wState2].take 0)
          ∧ r._id ∈ seenAfter [] ([wState1, wState2].take (0+1)))
      ∧ (∀ r ∈ pickedAt [] [wState1, wState2] 0, ∀ q ∈ pickedAt [] [wState1, wState2] 1,
          r._id ≠ q._id)) :=
  ⟨⟨Nat.zero_lt_one, Nat.one_lt_two⟩,
   getNewResults_at_most_once [] [wState1, wState2] 0 1 Nat.zero_lt_one Nat.one_lt_two⟩

/-- Claim C7: every `send_metrics` call unconditionally appends exactly one
new result record carrying the given iteration, objective and context
verbatim, touching neither the trial queue nor the stop collection; a second
identical call appends a second record. -/
theorem send_metrics_appends_one (s : DBState) (t : Trial) (it : Int) (obj : Value)
    (ctx : List (String × Value)) :
    (send_metrics s t it obj ctx).1.results
      = s.results ++ [{ _id := s.nextId, parameters := t.parameters, trial_id := t.id,
                        objective := obj, iteration := it, context := ctx }]
    ∧ (send_metrics s t it obj ctx).1.trials = s.trials
    ∧ (send_metrics s t it obj ctx).1.stop = s.stop
    ∧ (send_metrics (send_metrics s t it obj ctx).1 t it obj ctx).1.results
      = s.results ++ [{ _id := s.nextId, parameters := t.parameters, trial_id := t.id,
                        objective := obj, iteration := it, context := ctx },
                      { _id := s.nextId + 1, parameters := t.parameters, trial_id := t.id,
                        objective := obj, iteration := it, context := ctx }] := by
  simp [send_metrics_state, List.append_assoc]

/-- Claim C3: a `send_metrics` call raises the stop signal exactly when some
stop-request record carries the trial's id; otherwise it returns normally;
and after a successful `add_for_stopping tid`, any later `send_metrics` for a
trial with id `tid` (the stop collection only ever grows) raises the signal. -/
theorem send_metrics_stop_signal (s : DBState) (t : Trial) (it : Int) (obj : Value)
    (ctx : List (String × Value)) :
    ((send_metrics s t it obj ctx).2 = Except.error PyError.stopIteration
      ↔ ∃ e ∈ s.stop, e.trial_id = t.id)
    ∧ ((¬ ∃ e ∈ s.stop, e.trial_id = t.id) → (send_metrics s t it obj ctx).2 = Except.ok ())
    ∧ (∀ (d : Database) (tid : Int) (s1 s2 : DBState) (t2 : Trial),
        add_for_stopping d s tid = Except.ok s1 →
        (∀ e ∈ s1.stop, e ∈ s2.stop) →
        t2.id = tid →
        (send_metrics s2 t2 it obj ctx).2 = Except.error PyError.stopIteration) := by
  have hiff : ∀ (st : DBState) (tr : Trial),
      ((send_metrics st tr it obj ctx).2 = Except.error PyError.stopIteration)
        ↔ ∃ e ∈ st.stop, e.trial_id = tr.id := by
    intro st tr
    rw [send_metrics_snd_eq]
    by_cases h : st.stop.any (fun e => e.trial_id == tr.id) = true
    · rw [if_pos h]
      constructor
      · intro _
        rw [List.any_eq_true] at h
        simpa using h
      · intro _; rfl
    · rw [if_neg h]
      constructor
      · intro hcon; exact absurd hcon (by simp)
      · intro hex
        exfalso
        apply h
        rw [List.any_eq_true]
        simpa using hex
  refine ⟨hiff s t, ?_, ?_⟩
  · intro hne
    rw [send_metrics_snd_eq, if_neg ?_]
    intro hcon
    apply hne
    rw [List.any_eq_true] at hcon
    simpa using hcon
  · intro d tid s1 s2 t2 hadd hsub ht2
    have hs1 : s1.stop = s.stop ++ [{ trial_id := tid }] := by
      rcases hc : check_db_status d with e | u
      · simp only [add_for_stopping, hc] at hadd
        exact Except.noConfusion hadd
      · simp only [add_for_stopping, hc] at hadd
        injection hadd with h
        rw [← h]
    apply (hiff s2 t2).mpr
    refine ⟨{ trial_id := tid }, ?_, ?_⟩
    · apply hsub
      rw [hs1]
      exact List.mem_append_right _ (List.mem_singleton.mpr rfl)
    · simpa using ht2.symm

/-- Witness for C3: marking trial 3 then reporting metrics for it raises the
stop signal. -/
theorem send_metrics_stop_signal_witness :
    (send_metrics stop3State { id := 3, parameters := [] } 1 (Value.pyInt 0) []).2
      = Except.error PyError.stopIteration :=
  ((send_metrics_stop_signal stop3State { id := 3, parameters := [] } 1 (Value.pyInt 0) []).1).mpr
    ⟨{ trial_id := 3 }, by decide, rfl⟩

/-- Claim C8: `get_new_results`, `enqueue_trial` and `add_for_stopping` all
run the liveness check before touching the store; when it fails, the same
error surfaces from each operation for every store state, with no record
inserted and the SeenSet unchanged. -/
theorem liveness_check_first (d : Database) (e : PyError)
    (hfail : check_db_status d = Except.error e) (s : DBState) (tr : Trial) (tid : Int) :
    get_new_results d s = Except.error e
    ∧ enqueue_trial d s tr = Except.error e
    ∧ add_for_stopping d s tid = Except.error e := by
  refine ⟨?_, ?_, ?_⟩ <;> simp only [get_new_results, enqueue_trial, add_for_stopping, hfail]

/-- Witness for C8 with a process that exited with status 2. -/
theorem liveness_check_first_witness :
    check_db_status dExited2 = Except.error (PyError.environmentError 2)
    ∧ (get_new_results dExited2 wState1 = Except.error (PyError.environmentError 2)
      ∧ enqueue_trial dExited2 wState1 trialNp = Except.error (PyError.environmentError 2)
      ∧ add_for_stopping dExited2 wState1 3 = Except.error (PyError.environmentError 2)) :=
  ⟨rfl, liveness_check_first dExited2 (PyError.environmentError 2) rfl wState1 trialNp 3⟩

/-- Claim C4 (code bug): the liveness check returns normally although the
supervised process has terminated, when the exit status is 0 — `if status:`
is false for a zero exit code.  A nonzero status and a still-running process
behave as the claim says. -/
theorem check_db_status_exit_zero :
    check_db_status { collected_results := [], mongo_process := some (some 0) } = Except.ok ()
    ∧ check_db_status { collected_results := [], mongo_process := some (some 1) }
        = Except.error (PyError.environmentError 1)
    ∧ check_db_status { collected_results := [], mongo_process := some none } = Except.ok () :=
  ⟨rfl, rfl, rfl⟩

/-- Claim C6 (code bug): constructing a reinstantiated session never drains
anything — `__init__` calls `get_new_results` while `mongo_process` is still
`None`, so the liveness check raises `AttributeError` for every store state. -/
theorem database_init_reinstantiated_raises (s : DBState) :
    database_init s true = Except.error PyError.attributeError := rfl

/-- Claim C2 (code bug): resolving a trial id with no matching request raises
`StopIteration` from `next(g)` on the first query attempt, with zero time
slept — the retry loop, the sleeps and the `RuntimeError` branch are never
reached; an id with a match returns the first match's id and parameters. -/
theorem get_trial_unknown_id_raises_early :
    get_trial none queueOne (some 999) = (0, Except.error PyError.stopIteration)
    ∧ get_trial none queueOne (some 1)
      = (0, Except.ok { id := 1, parameters := [("lr", Value.pyInt 1)] }) :=
  ⟨rfl, rfl⟩

/-- Claim C9 counterexample: with an explicit trial id of 0 the code ignores
the explicit argument — it asserts (ConfigurationError) although the id was
given and a matching request exists, and with the environment variable set it
resolves the environment id instead of the explicit one. -/
theorem get_trial_explicit_zero_ignored :
    get_trial none zeroTrialState (some 0) = (0, Except.error PyError.assertionError)
    ∧ get_trial (some 1) queueOne (some 0)
      = (0, Except.ok { id := 1, parameters := [("lr", Value.pyInt 1)] }) :=
  ⟨rfl, rfl⟩

/-- Claim C9 (amended): the trial identifier is resolved from the explicit
argument when a truthy (nonzero) one is given, otherwise from the
environment identifier; the call fails with the assertion (ConfigurationError)
immediately, before any store query, exactly when neither a nonzero explicit
id nor an environment identifier is present. -/
theorem get_trial_resolution (env : Option Int) (s : DBState) (n m : Int) (hn : n ≠ 0) :
    get_trial env s (some n) = trialLookup s n
    ∧ get_trial (some m) s (some 0) = trialLookup s m
    ∧ get_trial (some m) s none = trialLookup s m
    ∧ get_trial none s none = (0, Except.error PyError.assertionError)
    ∧ get_trial none s (some 0) = (0, Except.error PyError.assertionError) := by
  have hb : (n != 0) = true := by simpa using hn
  refine ⟨?_, rfl, rfl, rfl, rfl⟩
  simp only [get_trial, resolveTrialId, hb, if_true]

/-- Witness for C9 (amended) at concrete ids. -/
theorem get_trial_resolution_witness :
    (1 : Int) ≠ 0
    ∧ (get_trial (some 9) queueOne (some 1) = trialLookup queueOne 1
      ∧ get_trial (some 2) queueOne (some 0) = trialLookup queueOne 2
      ∧ get_trial (some 2) queueOne none = trialLookup queueOne 2
      ∧ get_trial none queueOne none = (0, Except.error PyError.assertionError)
      ∧ get_trial none queueOne (some 0) = (0, Except.error PyError.assertionError)) :=
  ⟨by decide, get_trial_resolution (some 9) queueOne 1 2 (by decide)⟩

/-- Claim C5: when inserting a trial fails because a parameter value is not
in the store's native numeric encoding (`InvalidDocument`), `enqueue_trial`
rebuilds the parameters coercing every fixed-width `numpy.int64` value to a
native `int` of the same integer, leaves every representable value unchanged,
and retries the insert exactly once: the call's outcome is exactly the
retry's outcome, the retry succeeding when every coerced value is
representable and its error propagating otherwise. -/
theorem enqueue_trial_coercion (d : Database) (s : DBState) (tr : Trial)
    (hok : check_db_status d = Except.ok ())
    (hfail : trials_insert_one s { trial_id := tr.id, parameters := tr.parameters }
      = Except.error PyError.invalidDocument) :
    enqueue_trial d s tr
      = trials_insert_one s
          { trial_id := tr.id,
            parameters := tr.parameters.map (fun kv => (kv.1, coerceValue kv.2)) }
    ∧ (∀ kv ∈ tr.parameters, representable kv.2 = true → coerceValue kv.2 = kv.2)
    ∧ (∀ n : Int, coerceValue (Value.npInt64 n) = Value.pyInt n
        ∧ representable (Value.pyInt n) = true)
    ∧ ((∀ kv ∈ tr.parameters, representable (coerceValue kv.2) = true) →
        enqueue_trial d s tr
          = Except.ok { s with trials := s.trials ++
              [{ trial_id := tr.id,
                 parameters := tr.parameters.map (fun kv => (kv.1, coerceValue kv.2)) }] })
    ∧ (∀ e : PyError,
        trials_insert_one s
          { trial_id := tr.id,
            parameters := tr.parameters.map (fun kv => (kv.1, coerceValue kv.2)) }
          = Except.error e →
        enqueue_trial d s tr = Except.error e) := by
  have hmain : enqueue_trial d s tr
      = trials_insert_one s
          { trial_id := tr.id,
            parameters := tr.parameters.map (fun kv => (kv.1, coerceValue kv.2)) } := by
    simp only [enqueue_trial, hok, hfail]
  refine ⟨hmain, ?_, ?_, ?_, ?_⟩
  · intro kv _ hrep
    cases hv : kv.2 with
    | npInt64 n => rw [hv] at hrep; simp [representable] at hrep
    | pyInt n => rfl
    | other b => rfl
  · intro n; exact ⟨rfl, rfl⟩
  · intro hall
    have hall2 : (tr.parameters.map (fun kv => (kv.1, coerceValue kv.2))).all
        (fun kv => representable kv.2) = true := by
      rw [List.all_eq_true]
      intro x hx
      obtain ⟨kv, hkv, rfl⟩ := List.mem_map.mp hx
      exact hall kv hkv
    rw [hmain]
    simp only [trials_insert_one]
    rw [if_pos hall2]
  · intro e he
    rw [hmain]
    exact he

/-- Witness for C5: a trial holding a `numpy.int64` parameter next to a
representable one is rejected, coerced and accepted on the retry. -/
theorem enqueue_trial_coercion_witness :
    (check_db_status dRunning = Except.ok ()
      ∧ trials_insert_one emptyState { trial_id := trialNp.id, parameters := trialNp.parameters }
          = Except.error PyError.invalidDocument)
    ∧ (enqueue_trial dRunning emptyState trialNp
        = trials_insert_one emptyState
            { trial_id := trialNp.id,
              parameters := trialNp.parameters.map (fun kv => (kv.1, coerceValue kv.2)) }
      ∧ (∀ kv ∈ trialNp.parameters, representable kv.2 = true → coerceValue kv.2 = kv.2)
      ∧ (∀ n : Int, coerceValue (Value.npInt64 n) = Value.pyInt n
          ∧ representable (Value.pyInt n) = true)
      ∧ ((∀ kv ∈ trialNp.parameters, representable (coerceValue kv.2) = true) →
          enqueue_trial dRunning emptyState trialNp
            = Except.ok { emptyState with trials := emptyState.trials ++
                [{ trial_id := trialNp.id,
                   parameters := trialNp.parameters.map (fun kv => (kv.1, coerceValue kv.2)) }] })
      ∧ (∀ e : PyError,
          trials_insert_one emptyState
            { trial_id := trialNp.id,
              parameters := trialNp.parameters.map (fun kv => (kv.1, coerceValue kv.2)) }
            = Except.error e →
          enqueue_trial dRunning emptyState trialNp = Except.error e)) :=
  ⟨⟨rfl, rfl⟩, enqueue_trial_coercion dRunning emptyState trialNp rfl rfl⟩

/-- Claim C10: the rows `get_new_results` hands back are the selected result
documents with the store-assigned `_id` popped: the caller receives the
parameters, trial id, objective, iteration and context fields and nothing
else, while the popped ids feed the SeenSet. -/
theorem getNewResults_strips_store_id (d : Database) (s : DBState)
    (hrun : d.mongo_process = some none) :
    get_new_results d s
      = Except.ok ((collectNew s.results d.collected_results).1.map viewOf,
          { collected_results := (collectNew s.results d.collected_results).2,
            mongo_process := some none })
    ∧ (∀ r : ResultDoc,
        viewOf r = { parameters := r.parameters, trial_id := r.trial_id,
                     objective := r.objective, iteration := r.iteration,
                     context := r.context }) := by
  constructor
  · simp only [get_new_results, check_db_status, hrun]
  · intro r; rfl

/-- Witness for C10 at a concrete running session and store. -/
theorem getNewResults_strips_store_id_witness :
    dRunning.mongo_process = some none
    ∧ (get_new_results dRunning wState2
        = Except.ok ((collectNew wState2.results dRunning.collected_results).1.map viewOf,
            { collected_results := (collectNew wState2.results dRunning.collected_results).2,
              mongo_process := some none })
      ∧ (∀ r : ResultDoc,
          viewOf r = { parameters := r.parameters, trial_id := r.trial_id,
                       objective := r.objective, iteration := r.iteration,
                       context := r.context })) :=
  ⟨rfl, getNewResults_strips_store_id dRunning wState2 rfl⟩
